import Mathlib

/-!
Verification of the EIP-1153 bytecode scanner (`eip1153_scanner.py`).

The scanner fetches a contract's deployed bytecode as a hex string and
counts occurrences of the hex substrings "5d" (TSTORE) and "5c" (TLOAD)
directly on the text, after stripping an optional "0x" marker from the
front.  We embed the pure core of the program: the substring counter
(Python `str.count` specialised to two-character patterns), the opcode
scanner, the per-contract analyzer, the batch loop, and the summary
computation of `main`'s batch mode (whose adoption-rate line performs a
Python division that raises `ZeroDivisionError` when the denominator is
zero; we embed that division as an `Except`-valued operation).

The network fetch is external (web3); `analyze_contract` is therefore
embedded as a function of the fetch outcome: `Except String (List Char)`
is either the hex text delivered by `fetch_bytecode` or the message of
the exception it raised.  Hex text is modelled as `List Char`; raw
bytecode as `List Nat` (each entry < 256), with `bytesToHex` playing the
role of `bytes.hex()` (lowercase, two digits per byte).
-/

/-- Lowercase hex digit for a value 0..15, as produced by Python `bytes.hex()`. -/
def hexDigitChar (n : Nat) : Char :=
  match n with
  | 0 => '0' | 1 => '1' | 2 => '2' | 3 => '3' | 4 => '4'
  | 5 => '5' | 6 => '6' | 7 => '7' | 8 => '8' | 9 => '9'
  | 10 => 'a' | 11 => 'b' | 12 => 'c' | 13 => 'd' | 14 => 'e'
  | _ => 'f'

/-- Two lowercase hex digits of one byte, as in Python `bytes.hex()`. -/
def byteToHex (b : Nat) : List Char :=
  [hexDigitChar (b / 16), hexDigitChar (b % 16)]

/-- Hex text of a byte sequence: Python `bytes.hex()` (lowercase, no marker). -/
def bytesToHex (bs : List Nat) : List Char :=
  (bs.map byteToHex).flatten

/-- Python `text.count(pat)` for a two-character pattern `pat`:
non-overlapping occurrences, scanning left to right; after a match the
scan resumes two characters further on. -/
def str_count (pat : Char × Char) : List Char → Nat
  | [] => 0
  | [_] => 0
  | c :: d :: rest =>
    if c == pat.1 && d == pat.2 then 1 + str_count pat rest
    else str_count pat (d :: rest)

/-- `TSTORE_OPCODE = '5d'` from the scanner class. -/
def TSTORE_OPCODE : Char × Char := ('5', 'd')

/-- `TLOAD_OPCODE = '5c'` from the scanner class. -/
def TLOAD_OPCODE : Char × Char := ('5', 'c')

/-- The `if bytecode.startswith('0x'): bytecode = bytecode[2:]` step of
`scan_for_opcodes`: drop a leading "0x" marker when present. -/
def strip0x : List Char → List Char
  | '0' :: 'x' :: rest => rest
  | s => s

/-- The dictionary returned by `scan_for_opcodes`. -/
structure OpcodeCounts where
  tstore : Nat
  tload : Nat
  total_eip1153 : Nat
deriving DecidableEq

/-- `EIP1153Scanner.scan_for_opcodes`: strip the optional "0x" marker,
then count hex-substring occurrences of "5d" and "5c" on the text. -/
def scan_for_opcodes (bytecode : List Char) : OpcodeCounts :=
  let b := strip0x bytecode
  let tstore_count := str_count TSTORE_OPCODE b
  let tload_count := str_count TLOAD_OPCODE b
  ⟨tstore_count, tload_count, tstore_count + tload_count⟩

/-- The result dictionary built by `analyze_contract`.  The error-branch
dictionary of the Python code carries only `address`, `error` and
`success`; the numeric fields absent from it are embedded as `0` and the
absent `uses_eip1153` as `false`, matching the `r.get('uses_eip1153',
False)` default with which `main` later reads it. -/
structure AnalysisResult where
  address : String
  bytecode_size : Nat
  tstore_count : Nat
  tload_count : Nat
  uses_eip1153 : Bool
  success : Bool
  error : Option String
deriving DecidableEq

/-- `EIP1153Scanner.analyze_contract`, as a function of the outcome of
`fetch_bytecode(address)`: an exception message, or the hex text of the
deployed bytecode.  On fetch failure it returns a failed record; on
success it scans the text and sets `bytecode_size = len(bytecode) // 2`
on the unstripped text. -/
def analyze_contract (address : String) (fetched : Except String (List Char)) :
    AnalysisResult :=
  match fetched with
  | Except.error e => ⟨address, 0, 0, 0, false, false, some e⟩
  | Except.ok bytecode =>
    let counts := scan_for_opcodes bytecode
    ⟨address, bytecode.length / 2, counts.tstore, counts.tload,
      decide (0 < counts.total_eip1153), true, none⟩

/-- `EIP1153Scanner.batch_analyze`: one `analyze_contract` call per
address, results appended in input order.  Each list entry pairs an
address with its fetch outcome. -/
def batch_analyze (inputs : List (String × Except String (List Char))) :
    List AnalysisResult :=
  inputs.map (fun p => analyze_contract p.1 p.2)

/-- `total = len(results)` from the batch summary in `main`. -/
def summary_total (results : List AnalysisResult) : Nat :=
  results.length

/-- `with_eip1153 = sum(1 for r in results if r.get('uses_eip1153', False))`
from the batch summary in `main`. -/
def summary_with_eip1153 (results : List AnalysisResult) : Nat :=
  (results.filter (fun r => r.uses_eip1153)).length

/-- Python true division on rationals: raises `ZeroDivisionError` when
the divisor is zero. -/
def pyDivQ (a b : ℚ) : Except String ℚ :=
  if b = 0 then Except.error "ZeroDivisionError" else Except.ok (a / b)

/-- The `with_eip1153/total*100` adoption-rate expression printed by
`main`'s batch summary. -/
def adoption_rate (results : List AnalysisResult) : Except String ℚ :=
  (pyDivQ (summary_with_eip1153 results) (summary_total results)).map
    (fun q => q * 100)

/-- A default `AnalysisResult`, used only as the fallback of `List.getD`. -/
def defaultResult : AnalysisResult :=
  ⟨"", 0, 0, 0, false, false, none⟩

/-- Batch scenario of C7: B's fetch fails between two successes. -/
def exampleBatch : List (String × Except String (List Char)) :=
  [("A", Except.ok ['5', 'd']),
   ("B", Except.error "fetch failed"),
   ("C", Except.ok [])]

-- Sanity examples (kept: they pin the embedding to the source behavior).
example : bytesToHex [0x60, 0x5d] = ['6', '0', '5', 'd'] := by decide
example : str_count TSTORE_OPCODE ['5', 'd', '5', 'd', '5', 'd'] = 3 := by decide
example : strip0x ['0', 'x', '5', 'd'] = ['5', 'd'] := by decide
example : (scan_for_opcodes ['0', 'x', '5', 'd']).tstore = 1 := by decide

/-- Length of the hex text of a byte sequence: two characters per byte. -/
theorem bytesToHex_length (bs : List Nat) : (bytesToHex bs).length = 2 * bs.length := by
  induction bs with
  | nil => rfl
  | cons b rest ih =>
    simp [bytesToHex, byteToHex, List.flatten] at *
    omega

/-- Claim C1 (code_bug evaluation): on the bytecode `60 5d` (PUSH1 0x5d),
whose only 0x5d byte is the immediate data of the push instruction, the
scanner reports `tstore_count = 1`, not the 0 the claim requires: the
substring count does not track instruction boundaries. -/
theorem scan_counts_push_immediate_data :
    (scan_for_opcodes (bytesToHex [0x60, 0x5d])).tstore = 1 := by decide

/-- Claim C2: analyzing the single byte 0x5d yields tstore 1, tload 0 and
the feature flag set; analyzing `5d 5d 5d` yields tstore 3, tload 0 and
the feature flag set. -/
theorem true_positive_single_and_triple_tstore :
    ((analyze_contract "0xAA" (Except.ok (bytesToHex [0x5d]))).tstore_count = 1 ∧
     (analyze_contract "0xAA" (Except.ok (bytesToHex [0x5d]))).tload_count = 0 ∧
     (analyze_contract "0xAA" (Except.ok (bytesToHex [0x5d]))).uses_eip1153 = true) ∧
    ((analyze_contract "0xAA" (Except.ok (bytesToHex [0x5d, 0x5d, 0x5d]))).tstore_count = 3 ∧
     (analyze_contract "0xAA" (Except.ok (bytesToHex [0x5d, 0x5d, 0x5d]))).tload_count = 0 ∧
     (analyze_contract "0xAA" (Except.ok (bytesToHex [0x5d, 0x5d, 0x5d]))).uses_eip1153 = true) := by
  decide

/-- Claim C3 (counterexample): the malformed odd-length hex text "5d5" is
not rejected; the analyzer processes it successfully (and even counts an
occurrence in it), so malformed hex is silently processed, contradicting
the claim that it fails with an error. -/
theorem malformed_hex_silently_processed_cex :
    (analyze_contract "M" (Except.ok ['5', 'd', '5'])).success = true ∧
    (analyze_contract "M" (Except.ok ['5', 'd', '5'])).error = none ∧
    (analyze_contract "M" (Except.ok ['5', 'd', '5'])).tstore_count = 1 := by
  decide

/-- Claim C3 (amended): the code has no hex validation at all: whatever
text the fetch delivers — odd length, non-hex characters included — the
analysis succeeds with no error recorded. -/
theorem analysis_never_rejects_input (a : String) (s : List Char) :
    (analyze_contract a (Except.ok s)).success = true ∧
    (analyze_contract a (Except.ok s)).error = none :=
  ⟨rfl, rfl⟩

/-- Claim C4 (counterexample): when the fetched text carries the "0x"
marker, `len(bytecode) // 2` is computed on the unstripped text: for
"0x5d" (one raw byte) the reported size is 2, not 1. -/
theorem bytecode_size_with_0x_cex :
    (analyze_contract "A" (Except.ok ('0' :: 'x' :: bytesToHex [0x5d]))).bytecode_size ≠
      ([0x5d] : List Nat).length := by decide

/-- Claim C4 (amended): `bytecode_size` is half the length of the fetched
hex text: the raw byte count when the text is unmarked, and one more than
the raw byte count when the text starts with "0x". -/
theorem bytecode_size_halves_hex_length (a : String) (bs : List Nat) :
    (analyze_contract a (Except.ok (bytesToHex bs))).bytecode_size = bs.length ∧
    (analyze_contract a (Except.ok ('0' :: 'x' :: bytesToHex bs))).bytecode_size =
      bs.length + 1 := by
  have h := bytesToHex_length bs
  constructor
  · simp [analyze_contract, h]
  · simp [analyze_contract, h]
    omega

/-- Claim C5 (counterexample): when the empty bytecode is delivered as
the marked text "0x" (the standard node representation of "no code"),
the reported size is 1, not 0: `len("0x") // 2 = 1` on the unstripped
text. -/
theorem empty_bytecode_0x_size_cex :
    (analyze_contract "B" (Except.ok ['0', 'x'])).bytecode_size ≠ 0 := by decide

/-- Claim C5 (amended): analyzing empty bytecode yields all counts 0, the
feature flag false and success true; `bytecode_size` is 0 when the empty
bytecode arrives as the empty text, but 1 when it arrives as "0x". -/
theorem empty_bytecode_analysis (a : String) :
    analyze_contract a (Except.ok []) = ⟨a, 0, 0, 0, false, true, none⟩ ∧
    analyze_contract a (Except.ok ['0', 'x']) = ⟨a, 1, 0, 0, false, true, none⟩ :=
  ⟨rfl, rfl⟩

/-- Claim C6: when the fetch raises, `analyze_contract` returns a record
with `success = false`, the exception message captured in `error`, and
the attempted address; being a total function of the fetch outcome, it
propagates nothing past this boundary. -/
theorem fetch_error_captured (a e : String) :
    (analyze_contract a (Except.error e)).success = false ∧
    (analyze_contract a (Except.error e)).error = some e ∧
    (analyze_contract a (Except.error e)).address = a :=
  ⟨rfl, rfl, rfl⟩

/-- Claim C8: for a successfully analyzed contract, the `uses_eip1153`
flag is true exactly when `tstore_count` or `tload_count` is positive. -/
theorem uses_eip1153_iff_positive_count (a : String)
    (fetched : Except String (List Char))
    (h : (analyze_contract a fetched).success = true) :
    (analyze_contract a fetched).uses_eip1153 = true ↔
      0 < (analyze_contract a fetched).tstore_count ∨
      0 < (analyze_contract a fetched).tload_count := by
  cases fetched with
  | error e => simp [analyze_contract] at h
  | ok bytecode =>
    simp only [analyze_contract, scan_for_opcodes, decide_eq_true_eq]
    omega

/-- Witness for C8 at bytecode "5d". -/
theorem uses_eip1153_iff_positive_count_witness :
    (analyze_contract "A" (Except.ok ['5', 'd'])).success = true ∧
    ((analyze_contract "A" (Except.ok ['5', 'd'])).uses_eip1153 = true ↔
      0 < (analyze_contract "A" (Except.ok ['5', 'd'])).tstore_count ∨
      0 < (analyze_contract "A" (Except.ok ['5', 'd'])).tload_count) :=
  ⟨by decide, uses_eip1153_iff_positive_count "A" (Except.ok ['5', 'd']) (by decide)⟩

/-- Claim C9: the hex-substring count matches across byte boundaries: the
bytecode `05 d0` contains no 0x5d byte, yet its hex text "05d0" makes the
scanner report `tstore_count = 1`. -/
theorem hex_cross_boundary_false_positive :
    (∀ b ∈ [0x05, 0xD0], b ≠ 0x5d) ∧
    (scan_for_opcodes (bytesToHex [0x05, 0xD0])).tstore = 1 := by decide

/-- Claim C7: the batch loop yields exactly one result per address, in
input order (position `i` of the output is the analysis of position `i`
of the input), a fetch failure aborting nothing; on the concrete scenario
[A, B(fetch fails), C] it yields three results in order with only B
failed, and the summary counts total = 3. -/
theorem batch_order_preservation
    (inputs : List (String × Except String (List Char))) (i : Nat)
    (h : i < inputs.length) :
    ((batch_analyze inputs).length = inputs.length ∧
     (batch_analyze inputs).getD i defaultResult =
       analyze_contract (inputs.getD i ("", Except.ok [])).1
         (inputs.getD i ("", Except.ok [])).2) ∧
    ((batch_analyze exampleBatch).map (fun r => (r.address, r.success)) =
       [("A", true), ("B", false), ("C", true)] ∧
     summary_total (batch_analyze exampleBatch) = 3) := by
  refine ⟨⟨by simp [batch_analyze], ?_⟩, by decide, by decide⟩
  induction inputs generalizing i with
  | nil => simp at h
  | cons p rest ih =>
    cases i with
    | zero => rfl
    | succ n =>
      have hn : n < rest.length := by simpa using h
      simpa [batch_analyze, List.getD_cons_succ] using ih n hn

/-- Witness for C7 at the [A, B(fails), C] scenario, index 1. -/
theorem batch_order_preservation_witness :
    1 < exampleBatch.length ∧
    (((batch_analyze exampleBatch).length = exampleBatch.length ∧
      (batch_analyze exampleBatch).getD 1 defaultResult =
        analyze_contract (exampleBatch.getD 1 ("", Except.ok [])).1
          (exampleBatch.getD 1 ("", Except.ok [])).2) ∧
     ((batch_analyze exampleBatch).map (fun r => (r.address, r.success)) =
        [("A", true), ("B", false), ("C", true)] ∧
      summary_total (batch_analyze exampleBatch) = 3)) :=
  ⟨by decide, batch_order_preservation exampleBatch 1 (by decide)⟩

/-- Claim C10: on an empty batch the adoption-rate expression of `main`
divides by zero and fails with `ZeroDivisionError`; for every non-empty
batch it produces a value. -/
theorem adoption_rate_empty_batch_fails :
    adoption_rate (batch_analyze []) = Except.error "ZeroDivisionError" ∧
    ∀ (inputs : List (String × Except String (List Char))), inputs ≠ [] →
      ∃ q, adoption_rate (batch_analyze inputs) = Except.ok q := by
  constructor
  · rfl
  · intro inputs hne
    have htot : summary_total (batch_analyze inputs) ≠ 0 := by
      simp [summary_total, batch_analyze]
      exact hne
    have hcast : (summary_total (batch_analyze inputs) : ℚ) ≠ 0 := by
      exact_mod_cast htot
    refine ⟨(summary_with_eip1153 (batch_analyze inputs) : ℚ) /
      (summary_total (batch_analyze inputs) : ℚ) * 100, ?_⟩
    simp [adoption_rate, pyDivQ, hcast, Except.map]

/-- Witness for C10 on a one-address batch. -/
theorem adoption_rate_empty_batch_fails_witness :
    ([("A", Except.ok ['5', 'd'])] : List (String × Except String (List Char))) ≠ [] ∧
    ∃ q, adoption_rate (batch_analyze [("A", Except.ok ['5', 'd'])]) = Except.ok q :=
  ⟨List.cons_ne_nil _ _,
   adoption_rate_empty_batch_fails.2 [("A", Except.ok ['5', 'd'])] (List.cons_ne_nil _ _)⟩
